import Mathlib

/-!
Verification of the client-side API/session layer of the LADI frontend.

The repository ships two variants of the `ApiService` class:
  * `src/src/services/api.ts` (modelled here in namespace `Src`), and
  * `src/unnamed/part_010` (modelled in namespace `P10`), a richer variant
    that maps server errors through `getErrorMessage`, classifies network
    failures, and persists the refresh token on login/signup.

The model is a shallow embedding.  Each browser `fetch` is driven by an
oracle trace (`List FetchOutcome`) consumed in order; thrown JavaScript
errors are `JsErr` values routed through `Except`; `localStorage` and the
in-memory token are the three fields of `Session`.  An un-awaited
`this.logout()` call is recorded by the `pending` flag: the logout request
is issued synchronously, but its `finally` block (which clears the tokens)
runs only after the logout round-trip settles, i.e. after the enclosing
call has already returned its envelope to the caller.
-/

namespace LADI

/-- Parsed JSON body of a backend response.  Fields mirror the wire names
used by the TypeScript code (`error`, `message`, `error_type`,
`access_token`, `refresh_token`, `download_url`); `tag` distinguishes
payloads the model does not otherwise inspect. -/
structure Body where
  error : Option String := none
  message : Option String := none
  errorType : Option String := none
  accessToken : Option String := none
  refreshTok : Option String := none
  downloadUrl : Option String := none
  tag : Nat := 0
deriving DecidableEq, Repr

/-- Client token state: `token` is the private in-memory `this.token`;
`ladiTok` and `ladiRefresh` are the durable `localStorage` entries under
the keys `ladi_token` and `ladi_refresh_token`. -/
structure Session where
  token : Option String
  ladiTok : Option String
  ladiRefresh : Option String
deriving DecidableEq, Repr

/-- The uniform `ApiResponse` result envelope: `\x7b success: true, data \x7d`
or `\x7b success: false, error \x7d`. -/
inductive Envelope where
  | ok (data : Body)
  | fail (error : String)
deriving DecidableEq, Repr

/-- The `success` flag of an envelope. -/
def Envelope.success : Envelope → Bool
  | .ok _ => true
  | .fail _ => false

/-- A thrown JavaScript error: either an `AbortError` (from the abort
controller) or an ordinary `Error` carrying a message. -/
inductive JsErr where
  | abortError
  | error (msg : String)
deriving DecidableEq, Repr

/-- Outcome of one `fetch` of a JSON endpoint: the promise resolves with a
response (`ok` flag, HTTP status, parsed JSON body) or rejects.  A body
that fails to parse as JSON surfaces as a thrown error in the same `try`
block and is folded into `reject`. -/
inductive FetchOutcome where
  | resp (ok : Bool) (status : Nat) (body : Body)
  | abort
  | reject (msg : String)
deriving DecidableEq, Repr

/-- Outcome of one binary (blob) `fetch`: resolves with an `ok` flag and
status (the blob itself is not inspected by any claim), or rejects. -/
inductive BlobOutcome where
  | resp (ok : Bool) (status : Nat)
  | reject (msg : String)
deriving DecidableEq, Repr

/-- One issued backend request: target URL, the `Authorization` header
value attached (if any), and the active abort-timer budget in
milliseconds, `none` when no live timer governs the fetch. -/
structure Call where
  url : String
  auth : Option String
  timeoutMs : Option Nat
deriving DecidableEq, Repr

/-- Result of one API-client operation at the moment its promise settles:
the envelope handed to the caller, the client state at that moment, the
unconsumed oracle trace, the requests issued (in order), and whether a
fire-and-forget logout is still pending. -/
structure Outx where
  env : Envelope
  st : Session
  trace : List FetchOutcome
  calls : List Call
  pending : Bool
deriving DecidableEq, Repr

/-- Result of the `try` block of a request method, before its `catch`
clause runs: the block either produces the success data or throws. -/
structure TryOut where
  res : Except JsErr Body
  st : Session
  trace : List FetchOutcome
  calls : List Call
  pending : Bool

/-- JavaScript truthiness of a nullable string: `null`/`undefined` and the
empty string are falsy. -/
def truthy : Option String → Bool
  | none => false
  | some s => !s.isEmpty

/-- JavaScript `a || b` for a nullable string `a` and fallback `b`. -/
def jsOrS : Option String → String → String
  | none, b => b
  | some a, b => if a.isEmpty then b else a

/-- JavaScript template-literal rendering of a nullable string:
`null` prints as the string `null`. -/
def jsStringOfOpt : Option String → String
  | some s => s
  | none => "null"

/-- Prefix test on character lists (kernel-reducible). -/
def charsStartsWith : List Char → List Char → Bool
  | [], _ => true
  | _ :: _, [] => false
  | p :: ps, c :: cs => p == c && charsStartsWith ps cs

/-- Substring test on character lists (kernel-reducible). -/
def charsIncludes : List Char → List Char → Bool
  | sub, [] => charsStartsWith sub []
  | sub, c :: cs => charsStartsWith sub (c :: cs) || charsIncludes sub cs

/-- JavaScript `s.includes(sub)`. -/
def strIncludes (s sub : String) : Bool :=
  charsIncludes sub.toList s.toList

/-- Remove the first occurrence of `pat` (JavaScript
`s.replace(pat, "")` with a string pattern replaces only the first hit). -/
def charsReplaceFirst : List Char → List Char → List Char
  | _, [] => []
  | pat, c :: cs =>
    if charsStartsWith pat (c :: cs) then List.drop pat.length (c :: cs)
    else c :: charsReplaceFirst pat cs

/-- JavaScript `s.replace(pat, "")`. -/
def jsReplaceFirst (s pat : String) : String :=
  ⟨charsReplaceFirst pat.toList s.toList⟩

/-- `data.error?.includes(sub)` with optional chaining. -/
def optIncludes : Option String → String → Bool
  | none, _ => false
  | some s, sub => strIncludes s sub

/-- The backend base URL (the development default of `API_BASE_URL`; the
claims never depend on its value). -/
def apiBaseUrl : String := "http://localhost:5000/api"

/-- The `Authorization` header attached when a token is present and truthy
(`if (this.token) headers.Authorization = ...`). -/
def authHeader : Option String → Option String
  | none => none
  | some s => if s.isEmpty then none else some ("Bearer " ++ s)

/-- Pop the next scripted fetch outcome; a trace shorter than the number
of fetches issued reads as a network rejection. -/
def popTrace : List FetchOutcome → FetchOutcome × List FetchOutcome
  | [] => (FetchOutcome.reject "Failed to fetch", [])
  | o :: rest => (o, rest)

/-- The exact-match part of the `errorMap` of `getErrorMessage`
(part_010 lines 93-109). -/
def errorMapLookup (e : String) : Option String :=
  if e = "User with this email already exists" then
    some "An account with this email already exists. Please try logging in instead."
  else if e = "Invalid email or password" then
    some "Invalid email or password. Please check your credentials and try again."
  else if e = "Account is deactivated" then
    some "Your account has been deactivated. Please contact support."
  else if e = "Invalid email format" then
    some "Please enter a valid email address."
  else if e = "Password must be at least 8 characters long" then
    some "Password must be at least 8 characters long."
  else if e = "Password must contain at least one uppercase letter" then
    some "Password must contain at least one uppercase letter."
  else if e = "Password must contain at least one lowercase letter" then
    some "Password must contain at least one lowercase letter."
  else if e = "OpenAI API is not configured" then
    some "AI-powered evaluation requires OpenAI API configuration. Please contact your administrator to set up the OPENAI_API_KEY environment variable."
  else if e = "Password must contain at least one number" then
    some "Password must contain at least one number."
  else if e = "Email and password are required" then
    some "Please enter both email and password."
  else if e = "Invalid refresh token" then
    some "Your session has expired. Please log in again."
  else if e = "User not found or inactive" then
    some "User account not found or inactive."
  else if e = "Session expired" then
    some "Your session has expired. Please log in again."
  else if e = "Refresh token is required" then
    some "Session expired. Please log in again."
  else if e = "New password is required" then
    some "New password is required."
  else none

/-- The `fieldMap` for field-specific required errors
(part_010 lines 114-119). -/
def fieldMapLookup (f : String) : Option String :=
  if f = "email" then some "Email"
  else if f = "password" then some "Password"
  else if f = "first_name" then some "First name"
  else if f = "last_name" then some "Last name"
  else none

/-- Status-keyed fallback messages: the `switch (status)` of
`getErrorMessage` (part_010 lines 131-154). -/
def statusMessage (error : String) (s : Nat) : String :=
  if s = 400 then (if error.isEmpty then "Invalid request. Please check your input." else error)
  else if s = 401 then (if error.isEmpty then "Authentication failed. Please log in again." else error)
  else if s = 403 then "Access denied. You do not have permission to perform this action."
  else if s = 404 then "Resource not found."
  else if s = 409 then (if error.isEmpty then "Conflict with existing data." else error)
  else if s = 422 then (if error.isEmpty then "Validation error. Please check your input." else error)
  else if s = 429 then "Too many requests. Please try again later."
  else if s = 500 then "Server error. Please try again later or contact support."
  else if s = 502 ∨ s = 503 ∨ s = 504 then "Service temporarily unavailable. Please try again later."
  else (if error.isEmpty then "An unexpected error occurred." else error)

/-- `ApiService.getErrorMessage` (part_010 lines 91-158): the
` is required` rewriting runs first, then the exact-match map, then the
status switch, then the raw error or a generic fallback. -/
def getErrorMessage (error : String) (status : Option Nat) : String :=
  if strIncludes error " is required" then
    let field := jsReplaceFirst error " is required"
    ((fieldMapLookup field).getD field) ++ " is required."
  else
    match errorMapLookup error with
    | some m => m
    | none =>
      match status with
      | some s => statusMessage error s
      | none => if error.isEmpty then "An unexpected error occurred." else error

/-- The `catch` clause of `ApiService.request` in part_010
(lines 236-267): aborts become the timeout message, fetch/network
failures and CORS blocks get fixed classifications, and anything else is
mapped through `getErrorMessage`. -/
def catchEnvelope : JsErr → Envelope
  | .abortError =>
    .fail "Request timeout - the evaluation is taking longer than expected. Please try again or contact support if the issue persists."
  | .error m =>
    if strIncludes m "Failed to fetch" || strIncludes m "NetworkError" then
      .fail "Network error - please check your internet connection and try again."
    else if strIncludes m "CORS" then
      .fail "Cross-origin request blocked. Please try refreshing the page."
    else .fail (getErrorMessage m none)

/-- Apply a `catch` clause to the result of a `try` block, producing the
settled operation result. -/
def outxOfTry (c : JsErr → Envelope) (t : TryOut) : Outx :=
  { env := match t.res with
      | .ok b => .ok b
      | .error e => c e,
    st := t.st, trace := t.trace, calls := t.calls, pending := t.pending }

/-- The token clearing performed by the `finally` block of the part_010
`logout` (lines 314-318); when a `request` call initiates a
fire-and-forget logout, this runs only after the logout round trip
settles. -/
def finalizeLogout (_ : Session) : Session := ⟨none, none, none⟩

/-- The token clearing of the `finally` block of `logout` in
`src/src/services/api.ts` (lines 202-205): only `this.token` and the
`ladi_token` storage entry are cleared. -/
def finalizeLogoutSrc (st : Session) : Session :=
  { st with token := none, ladiTok := none }

namespace P10

mutual

/-- `ApiService.request` of `src/unnamed/part_010` (lines 160-268), the
`try` block only (returning data or throwing); the `catch` clause is
applied by `request` below.  The first argument is a recursion budget
bounding the nesting depth of refresh attempts inside refresh attempts;
every theorem below supplies enough budget that the exhaustion stub is
never reached.  In the refresh-failure branch the source calls
`this.logout()` without `await`: the `/auth/logout` request is issued
synchronously (recorded in `calls`), but the token clearing in the logout
`finally` block has not yet run when the envelope is returned, which the
`pending := true` flag records.  The replay fetch reuses the abort
controller whose timer was already cleared, so no live timer governs it
(`timeoutMs := none`). -/
def requestTry : Nat → Session → String → Bool → List FetchOutcome → TryOut
  | 0, st, _, _, trace =>
    ⟨Except.error (JsErr.error "model recursion budget exhausted"), st, trace, [], false⟩
  | fuel + 1, st, ep, isForm, trace =>
    let auth := authHeader st.token
    let tmo : Nat := if isForm then 300000 else 30000
    let p := popTrace trace
    let call : Call := ⟨apiBaseUrl ++ ep, auth, some tmo⟩
    match p.1 with
    | FetchOutcome.abort => ⟨Except.error JsErr.abortError, st, p.2, [call], false⟩
    | FetchOutcome.reject m => ⟨Except.error (JsErr.error m), st, p.2, [call], false⟩
    | FetchOutcome.resp ok status body =>
      if ok then ⟨Except.ok body, st, p.2, [call], false⟩
      else if status == 401 && optIncludes body.error "expired" then
        let r := refreshToken fuel st p.2
        if r.env.success then
          let auth2 := some ("Bearer " ++ jsStringOfOpt r.st.token)
          let q := popTrace r.trace
          let call2 : Call := ⟨apiBaseUrl ++ ep, auth2, none⟩
          match q.1 with
          | FetchOutcome.abort =>
            ⟨Except.error JsErr.abortError, r.st, q.2, [call] ++ r.calls ++ [call2], r.pending⟩
          | FetchOutcome.reject m =>
            ⟨Except.error (JsErr.error m), r.st, q.2, [call] ++ r.calls ++ [call2], r.pending⟩
          | FetchOutcome.resp ok2 _ body2 =>
            if ok2 then ⟨Except.ok body2, r.st, q.2, [call] ++ r.calls ++ [call2], r.pending⟩
            else
              ⟨Except.error (JsErr.error
                  (jsOrS body2.error (jsOrS body2.message "API request failed after token refresh"))),
                r.st, q.2, [call] ++ r.calls ++ [call2], r.pending⟩
        else
          let callL : Call := ⟨apiBaseUrl ++ "/auth/logout", authHeader r.st.token, some 30000⟩
          ⟨Except.error (JsErr.error "Session expired. Please log in again."),
            r.st, r.trace, [call] ++ r.calls ++ [callL], true⟩
      else
        let msg := getErrorMessage (jsOrS body.error (jsOrS body.message "")) (some status)
        if body.errorType == some "openai_configuration"
            || strIncludes msg "OpenAI API is not configured" then
          ⟨Except.error (JsErr.error "OpenAI API is not configured. Please contact your administrator to set up the OPENAI_API_KEY environment variable."),
            st, p.2, [call], false⟩
        else ⟨Except.error (JsErr.error msg), st, p.2, [call], false⟩

/-- `ApiService.refreshToken` (part_010 lines 321-338): fail fast when no
refresh token is in durable storage, otherwise POST `/auth/refresh`
through `request` and, on success, overwrite the access token in memory
and in storage. -/
def refreshToken : Nat → Session → List FetchOutcome → Outx
  | 0, st, trace => ⟨Envelope.fail "model recursion budget exhausted", st, trace, [], false⟩
  | fuel + 1, st, trace =>
    if truthy st.ladiRefresh then
      let r := outxOfTry catchEnvelope (requestTry fuel st "/auth/refresh" false trace)
      match r.env with
      | Envelope.ok b => { r with st := { r.st with token := b.accessToken, ladiTok := b.accessToken } }
      | Envelope.fail _ => r
    else ⟨Envelope.fail "No refresh token available", st, trace, [], false⟩

end

/-- `ApiService.request` (part_010 lines 160-268): the `try` block with
the `catch` clause applied; the method itself always resolves with an
envelope. -/
def request (fuel : Nat) (st : Session) (ep : String) (isForm : Bool)
    (trace : List FetchOutcome) : Outx :=
  outxOfTry catchEnvelope (requestTry fuel st ep isForm trace)

/-- `ApiService.login` (part_010 lines 271-288): on a success envelope,
store the access token in memory and in `ladi_token`, and, when the
response carries a (truthy) refresh token, store it in
`ladi_refresh_token`. -/
def login (fuel : Nat) (st : Session) (trace : List FetchOutcome) : Outx :=
  let r := request fuel st "/auth/login" false trace
  match r.env with
  | Envelope.ok b =>
    let st1 : Session := { r.st with token := b.accessToken, ladiTok := b.accessToken }
    let st2 : Session := if truthy b.refreshTok then { st1 with ladiRefresh := b.refreshTok } else st1
    { r with st := st2 }
  | Envelope.fail _ => r

/-- `ApiService.signup` (part_010 lines 290-307): identical persistence
to `login`, targeting `/auth/register`. -/
def signup (fuel : Nat) (st : Session) (trace : List FetchOutcome) : Outx :=
  let r := request fuel st "/auth/register" false trace
  match r.env with
  | Envelope.ok b =>
    let st1 : Session := { r.st with token := b.accessToken, ladiTok := b.accessToken }
    let st2 : Session := if truthy b.refreshTok then { st1 with ladiRefresh := b.refreshTok } else st1
    { r with st := st2 }
  | Envelope.fail _ => r

/-- `ApiService.logout` (part_010 lines 309-319): best-effort POST to
`/auth/logout` (any failure swallowed), then the `finally` block clears
the in-memory token and both storage entries. -/
def logout (fuel : Nat) (st : Session) (trace : List FetchOutcome) : Outx :=
  let r := request fuel st "/auth/logout" false trace
  { r with st := ⟨none, none, none⟩ }

/-- `ApiService.isAuthenticated` (part_010):
`!!(this.token || localStorage.getItem(ladi_token))`. -/
def isAuthenticated (st : Session) : Bool :=
  truthy st.token || truthy st.ladiTok

/-- `ApiService.verifyResetToken` (part_010 lines 348-362): the reset
token temporarily replaces `this.token` for the single request; the
`finally` block restores the original token before the method returns. -/
def verifyResetToken (fuel : Nat) (st : Session) (tok : String)
    (trace : List FetchOutcome) : Outx :=
  let originalToken := st.token
  let r := request fuel { st with token := some tok } "/auth/verify-reset-token" false trace
  { r with st := { r.st with token := originalToken } }

/-- `ApiService.resetPassword` (part_010 lines 364-379): same temporary
token swap as `verifyResetToken`, targeting `/auth/reset-password`. -/
def resetPassword (fuel : Nat) (st : Session) (tok : String)
    (trace : List FetchOutcome) : Outx :=
  let originalToken := st.token
  let r := request fuel { st with token := some tok } "/auth/reset-password" false trace
  { r with st := { r.st with token := originalToken } }

end P10

/-- Result of `getEvaluations`: like `Outx` plus the list of backoff
delays (in ms) actually awaited between attempts. -/
structure GOut where
  env : Envelope
  st : Session
  trace : List FetchOutcome
  calls : List Call
  delays : List Nat
  pending : Bool
deriving DecidableEq, Repr

/-- `lastError = new Error(response.error || (Failed to get evaluations))`
(part_010 line 518). -/
def lastErrorMsg : Envelope → String
  | Envelope.fail m => if m.isEmpty then "Failed to get evaluations" else m
  | Envelope.ok _ => ""

namespace P10

/-- `ApiService.getEvaluations` (part_010 lines 508-534): a loop of up to
3 attempts through `request`.  An attempt whose envelope is a success is
returned immediately; a failure envelope updates `lastError` and the loop
retries.  The `catch` block of the source - the only place the backoff
sleep `setTimeout(..., 1000 * attempt)` occurs - is unreachable, because
`request` catches every error itself and always resolves with an
envelope; consequently no delay is ever recorded and failed attempts are
retried immediately. -/
def getEvaluations (fuel : Nat) (st : Session) (trace : List FetchOutcome) : GOut :=
  let r1 := request fuel st "/user/evaluations" false trace
  if r1.env.success then ⟨r1.env, r1.st, r1.trace, r1.calls, [], r1.pending⟩
  else
    let r2 := request fuel r1.st "/user/evaluations" false r1.trace
    if r2.env.success then
      ⟨r2.env, r2.st, r2.trace, r1.calls ++ r2.calls, [], r1.pending || r2.pending⟩
    else
      let r3 := request fuel r2.st "/user/evaluations" false r2.trace
      if r3.env.success then
        ⟨r3.env, r3.st, r3.trace, r1.calls ++ r2.calls ++ r3.calls, [],
          r1.pending || r2.pending || r3.pending⟩
      else
        let last := lastErrorMsg r3.env
        ⟨Envelope.fail (if last.isEmpty then "Failed to get evaluations after 3 attempts" else last),
          r3.st, r3.trace, r1.calls ++ r2.calls ++ r3.calls, [],
          r1.pending || r2.pending || r3.pending⟩

/-- The message a thrown error shows through `error.message`; a browser
`AbortError` carries this fixed message.  Used by the upload catch
clauses, which return `error.message` without classification. -/
def jsErrMessage : JsErr → String
  | JsErr.abortError => "The user aborted a request."
  | JsErr.error m => m

/-- The `catch` clause of `ApiService.uploadAndEvaluate`
(part_010 lines 433-439): `error.message` (the `Upload failed` fallback
is for non-`Error` throws, which the model does not produce). -/
def uploadCatch (e : JsErr) : Envelope := Envelope.fail (jsErrMessage e)

/-- `ApiService.uploadAndEvaluate` (part_010 lines 382-440): a bare
`fetch` of the multipart body - no `AbortController` and no timer is
attached to this request or to its replay (`timeoutMs := none`).  The
401-expired handling mirrors `request`, with the upload-specific
fallback messages. -/
def uploadAndEvaluate : Nat → Session → List FetchOutcome → Outx
  | 0, st, trace => ⟨Envelope.fail "model recursion budget exhausted", st, trace, [], false⟩
  | fuel + 1, st, trace =>
    let auth := authHeader st.token
    let p := popTrace trace
    let call : Call := ⟨apiBaseUrl ++ "/upload/evaluate", auth, none⟩
    let t : TryOut :=
      match p.1 with
      | FetchOutcome.abort => ⟨Except.error JsErr.abortError, st, p.2, [call], false⟩
      | FetchOutcome.reject m => ⟨Except.error (JsErr.error m), st, p.2, [call], false⟩
      | FetchOutcome.resp ok status body =>
        if ok then ⟨Except.ok body, st, p.2, [call], false⟩
        else if status == 401 && optIncludes body.error "expired" then
          let r := refreshToken fuel st p.2
          if r.env.success then
            let auth2 := some ("Bearer " ++ jsStringOfOpt r.st.token)
            let q := popTrace r.trace
            let call2 : Call := ⟨apiBaseUrl ++ "/upload/evaluate", auth2, none⟩
            match q.1 with
            | FetchOutcome.abort =>
              ⟨Except.error JsErr.abortError, r.st, q.2, [call] ++ r.calls ++ [call2], r.pending⟩
            | FetchOutcome.reject m =>
              ⟨Except.error (JsErr.error m), r.st, q.2, [call] ++ r.calls ++ [call2], r.pending⟩
            | FetchOutcome.resp ok2 _ body2 =>
              if ok2 then ⟨Except.ok body2, r.st, q.2, [call] ++ r.calls ++ [call2], r.pending⟩
              else
                ⟨Except.error (JsErr.error
                    (jsOrS body2.error (jsOrS body2.message "Upload failed after token refresh"))),
                  r.st, q.2, [call] ++ r.calls ++ [call2], r.pending⟩
          else
            let callL : Call := ⟨apiBaseUrl ++ "/auth/logout", authHeader r.st.token, some 30000⟩
            ⟨Except.error (JsErr.error "Session expired. Please log in again."),
              r.st, r.trace, [call] ++ r.calls ++ [callL], true⟩
        else
          ⟨Except.error (JsErr.error (jsOrS body.error (jsOrS body.message "Upload failed"))),
            st, p.2, [call], false⟩
    outxOfTry uploadCatch t

/-- `ApiService.publicEvaluationDownload` (part_010 lines 556-558): the
signed-URL fallback request, routed through `request`. -/
def publicEvaluationDownload (fuel : Nat) (st : Session) (id : Nat)
    (trace : List FetchOutcome) : Outx :=
  request fuel st ("/upload/public/evaluation/" ++ toString id ++ "/download") false trace

end P10

/-- Result of a void download helper: `res` is `Except.ok ()` when the
helper resolves and `Except.error e` when it rejects, i.e. when an
exception escapes the method; `blobFetches` lists the raw binary fetches
issued. -/
structure DlOut where
  res : Except JsErr Unit
  st : Session
  trace : List FetchOutcome
  calls : List Call
  blobFetches : List String
  pending : Bool

namespace P10

/-- `ApiService.downloadEvaluationPdf` (part_010 lines 604-677): primary
direct blob fetch of the PDF; any throw there (non-2xx status or fetch
rejection) falls into the fallback, which asks the backend for a freshly
signed URL via `publicEvaluationDownload` and fetches that URL as a blob.
The fallback does not check the `ok` flag of its blob fetch.  If the
fallback also throws, the method rethrows
`Download failed. Please try again or contact support.` past its own
boundary. -/
def downloadEvaluationPdf (fuel : Nat) (st : Session) (id : Nat)
    (primary : BlobOutcome) (trace : List FetchOutcome) (fb : BlobOutcome) : DlOut :=
  let fileUrl := apiBaseUrl ++ "/upload/public/evaluation/" ++ toString id ++ "/download-file"
  match primary with
  | BlobOutcome.resp true _ => ⟨Except.ok (), st, trace, [], [fileUrl], false⟩
  | _ =>
    let r := publicEvaluationDownload fuel st id trace
    match r.env with
    | Envelope.fail _ =>
      ⟨Except.error (JsErr.error "Download failed. Please try again or contact support."),
        r.st, r.trace, r.calls, [fileUrl], r.pending⟩
    | Envelope.ok b =>
      if truthy b.downloadUrl then
        match fb with
        | BlobOutcome.reject _ =>
          ⟨Except.error (JsErr.error "Download failed. Please try again or contact support."),
            r.st, r.trace, r.calls, [fileUrl, jsStringOfOpt b.downloadUrl], r.pending⟩
        | BlobOutcome.resp _ _ =>
          ⟨Except.ok (), r.st, r.trace, r.calls, [fileUrl, jsStringOfOpt b.downloadUrl], r.pending⟩
      else
        ⟨Except.error (JsErr.error "Download failed. Please try again or contact support."),
          r.st, r.trace, r.calls, [fileUrl], r.pending⟩

/-- `ApiService.downloadTemplate` (part_010 tail, identical in
`src/src/services/api.ts` lines 711-727): on a failure envelope it throws
`new Error(response.error || (Download failed))` past its own boundary;
on success it triggers a DOM anchor download of the returned URL. -/
def downloadTemplate (fuel : Nat) (st : Session) (id : Nat)
    (trace : List FetchOutcome) : DlOut :=
  let r := request fuel st ("/templates/" ++ toString id ++ "/download") false trace
  match r.env with
  | Envelope.ok _ => ⟨Except.ok (), r.st, r.trace, r.calls, [], r.pending⟩
  | Envelope.fail m =>
    ⟨Except.error (JsErr.error (if m.isEmpty then "Download failed" else m)),
      r.st, r.trace, r.calls, [], r.pending⟩

end P10

namespace Src

/-- The `catch` clause of `ApiService.request` in
`src/src/services/api.ts` (lines 153-165): aborts become the timeout
message; any other thrown error surfaces as its raw `error.message`. -/
def catchEnvelope : JsErr → Envelope
  | JsErr.abortError =>
    Envelope.fail "Request timeout - the evaluation is taking longer than expected. Please try again or contact support if the issue persists."
  | JsErr.error m => Envelope.fail m

mutual

/-- `ApiService.request` of `src/src/services/api.ts` (lines 86-166), the
`try` block.  Same control flow as the part_010 variant except that a
non-401 error is thrown as the raw
`data.error || data.message || (API request failed)` (no message map, no
OpenAI check) and the `catch` clause performs no network/CORS
classification. -/
def requestTry : Nat → Session → String → Bool → List FetchOutcome → TryOut
  | 0, st, _, _, trace =>
    ⟨Except.error (JsErr.error "model recursion budget exhausted"), st, trace, [], false⟩
  | fuel + 1, st, ep, isForm, trace =>
    let auth := authHeader st.token
    let tmo : Nat := if isForm then 300000 else 30000
    let p := popTrace trace
    let call : Call := ⟨apiBaseUrl ++ ep, auth, some tmo⟩
    match p.1 with
    | FetchOutcome.abort => ⟨Except.error JsErr.abortError, st, p.2, [call], false⟩
    | FetchOutcome.reject m => ⟨Except.error (JsErr.error m), st, p.2, [call], false⟩
    | FetchOutcome.resp ok status body =>
      if ok then ⟨Except.ok body, st, p.2, [call], false⟩
      else if status == 401 && optIncludes body.error "expired" then
        let r := refreshToken fuel st p.2
        if r.env.success then
          let auth2 := some ("Bearer " ++ jsStringOfOpt r.st.token)
          let q := popTrace r.trace
          let call2 : Call := ⟨apiBaseUrl ++ ep, auth2, none⟩
          match q.1 with
          | FetchOutcome.abort =>
            ⟨Except.error JsErr.abortError, r.st, q.2, [call] ++ r.calls ++ [call2], r.pending⟩
          | FetchOutcome.reject m =>
            ⟨Except.error (JsErr.error m), r.st, q.2, [call] ++ r.calls ++ [call2], r.pending⟩
          | FetchOutcome.resp ok2 _ body2 =>
            if ok2 then ⟨Except.ok body2, r.st, q.2, [call] ++ r.calls ++ [call2], r.pending⟩
            else
              ⟨Except.error (JsErr.error
                  (jsOrS body2.error (jsOrS body2.message "API request failed after token refresh"))),
                r.st, q.2, [call] ++ r.calls ++ [call2], r.pending⟩
        else
          let callL : Call := ⟨apiBaseUrl ++ "/auth/logout", authHeader r.st.token, some 30000⟩
          ⟨Except.error (JsErr.error "Session expired. Please log in again."),
            r.st, r.trace, [call] ++ r.calls ++ [callL], true⟩
      else
        ⟨Except.error (JsErr.error (jsOrS body.error (jsOrS body.message "API request failed"))),
          st, p.2, [call], false⟩

/-- `ApiService.refreshToken` of `src/src/services/api.ts`
(lines 208-225): textually the same method as in part_010, calling this
`request` of this variant. -/
def refreshToken : Nat → Session → List FetchOutcome → Outx
  | 0, st, trace => ⟨Envelope.fail "model recursion budget exhausted", st, trace, [], false⟩
  | fuel + 1, st, trace =>
    if truthy st.ladiRefresh then
      let r := outxOfTry catchEnvelope (requestTry fuel st "/auth/refresh" false trace)
      match r.env with
      | Envelope.ok b => { r with st := { r.st with token := b.accessToken, ladiTok := b.accessToken } }
      | Envelope.fail _ => r
    else ⟨Envelope.fail "No refresh token available", st, trace, [], false⟩

end

/-- `ApiService.request` of `src/src/services/api.ts` with its `catch`
applied. -/
def request (fuel : Nat) (st : Session) (ep : String) (isForm : Bool)
    (trace : List FetchOutcome) : Outx :=
  outxOfTry catchEnvelope (requestTry fuel st ep isForm trace)

/-- `ApiService.login` of `src/src/services/api.ts` (lines 169-181): on a
success envelope it stores the access token in memory and in
`ladi_token`; unlike part_010, the refresh token of the response is never
written to storage. -/
def login (fuel : Nat) (st : Session) (trace : List FetchOutcome) : Outx :=
  let r := request fuel st "/auth/login" false trace
  match r.env with
  | Envelope.ok b => { r with st := { r.st with token := b.accessToken, ladiTok := b.accessToken } }
  | Envelope.fail _ => r

/-- `ApiService.logout` of `src/src/services/api.ts` (lines 197-206): the
`finally` block clears the in-memory token and `ladi_token` only; the
`ladi_refresh_token` storage entry is left untouched. -/
def logout (fuel : Nat) (st : Session) (trace : List FetchOutcome) : Outx :=
  let r := request fuel st "/auth/logout" false trace
  { r with st := { r.st with token := none, ladiTok := none } }

/-- `ApiService.isAuthenticated` of `src/src/services/api.ts`
(lines 655-657): `!!this.token`. -/
def isAuthenticated (st : Session) : Bool :=
  truthy st.token

end Src

/-- The envelope `ApiService.request` (part_010) hands the caller as a
function of the replay fetch outcome, after a successful refresh: a 2xx
replay is returned as the success envelope; everything else is thrown and
lands in the catch clause (part_010 lines 203-216 and 236-267). -/
def retryEnvelope : FetchOutcome → Envelope
  | FetchOutcome.resp true _ b => Envelope.ok b
  | FetchOutcome.resp false _ b =>
    catchEnvelope (JsErr.error (jsOrS b.error (jsOrS b.message "API request failed after token refresh")))
  | FetchOutcome.abort => catchEnvelope JsErr.abortError
  | FetchOutcome.reject m => catchEnvelope (JsErr.error m)

/-- A blob fetch that throws inside its `try` block: a rejected promise
or a non-2xx response (which `downloadEvaluationPdf` turns into a thrown
`Error`). -/
def blobFailed : BlobOutcome → Bool
  | BlobOutcome.resp ok _ => !ok
  | BlobOutcome.reject _ => true

/-- The fallback path of `downloadEvaluationPdf` throws: the signed-URL
request produced a failure envelope, or its body carried no (truthy)
`download_url`, or the blob fetch of the signed URL rejected. -/
def fallbackFailed : Envelope → BlobOutcome → Bool
  | Envelope.fail _, _ => true
  | Envelope.ok b, fb =>
    if truthy b.downloadUrl then
      match fb with
      | BlobOutcome.reject _ => true
      | BlobOutcome.resp _ _ => false
    else true

/-- A session with both tokens in memory/storage and a stored refresh
token, used as a concrete starting state. -/
def stA : Session := ⟨some "tok0", some "tok0", some "ref0"⟩

/-- A session holding an access token but no stored refresh token. -/
def stNoRefresh : Session := ⟨some "tok0", some "tok0", none⟩

/-- A fresh, logged-out session. -/
def stEmpty : Session := ⟨none, none, none⟩

/-- A 401 body whose error text carries the expiry marker. -/
def bodyExpired : Body := { error := some "Token has expired" }

/-- A successful auth response carrying both tokens. -/
def bodyTokens : Body := { accessToken := some "newAcc", refreshTok := some "newRef" }

/-- An otherwise uninspected success payload. -/
def bodyData : Body := { tag := 7 }

/-! ## Helper lemmas -/

/-- `truthy` on a missing value. -/
theorem truthy_none : truthy none = false := rfl

/-- `truthy` on a present value. -/
theorem truthy_some (s : String) : truthy (some s) = !s.isEmpty := rfl

/-- Every error thrown inside the part_010 `request` try block is mapped
by its catch clause to a failure envelope: nothing is rethrown. -/
theorem catch_total (e : JsErr) : ∃ m, catchEnvelope e = Envelope.fail m := by
  cases e with
  | abortError => exact ⟨_, rfl⟩
  | error msg =>
    simp only [catchEnvelope]
    split
    · exact ⟨_, rfl⟩
    · split
      · exact ⟨_, rfl⟩
      · exact ⟨_, rfl⟩

/-- The session-expired error thrown after a failed refresh passes through
the catch clause unchanged. -/
theorem catch_session_expired :
    catchEnvelope (JsErr.error "Session expired. Please log in again.")
      = Envelope.fail "Session expired. Please log in again." := by decide

/-- A fully cleared session is unauthenticated. -/
theorem isAuthenticated_cleared : P10.isAuthenticated ⟨none, none, none⟩ = false := by decide

/-- Whatever the trace holds, the first fetch issued by the part_010
`request` targets the requested endpoint, carries the Authorization header
built from the current token, and runs under the 300s/30s abort timer. -/
theorem request_head_call (fuel : Nat) (st : Session) (ep : String) (isForm : Bool)
    (trace : List FetchOutcome) :
    (P10.request (fuel + 1) st ep isForm trace).calls.head?
      = some ⟨apiBaseUrl ++ ep, authHeader st.token, some (if isForm then 300000 else 30000)⟩ := by
  cases trace with
  | nil => simp [P10.request, P10.requestTry, outxOfTry, popTrace]
  | cons o rest =>
    cases o with
    | abort => simp [P10.request, P10.requestTry, outxOfTry, popTrace]
    | reject msg => simp [P10.request, P10.requestTry, outxOfTry, popTrace]
    | resp ok status body =>
      simp only [P10.request, P10.requestTry, outxOfTry, popTrace]
      repeat' split
      all_goals simp

/-- When the primary blob fetch of `downloadEvaluationPdf` throws and the
fallback fails as well, the method rejects with the fixed support message,
after having issued exactly the signed-URL request of the fallback. -/
theorem download_both_fail (fuel : Nat) (st : Session) (id : Nat) (primary : BlobOutcome)
    (trace : List FetchOutcome) (fb : BlobOutcome)
    (hp : blobFailed primary = true)
    (hf : fallbackFailed (P10.publicEvaluationDownload fuel st id trace).env fb = true) :
    (P10.downloadEvaluationPdf fuel st id primary trace fb).res
      = Except.error (JsErr.error "Download failed. Please try again or contact support.")
    ∧ (P10.downloadEvaluationPdf fuel st id primary trace fb).calls
      = (P10.publicEvaluationDownload fuel st id trace).calls := by
  cases primary with
  | reject msg =>
    simp only [P10.downloadEvaluationPdf]
    rcases henv : (P10.publicEvaluationDownload fuel st id trace).env with b | mm
    · rw [henv] at hf
      simp only [fallbackFailed] at hf
      rcases htr : truthy b.downloadUrl with _ | _
      · rw [htr] at hf
        simp [henv, htr]
      · rw [htr] at hf
        simp only [if_pos rfl] at hf
        cases fb with
        | resp ok2 s2 => simp at hf
        | reject m2 => simp [henv, htr]
    · simp [henv]
  | resp ok s =>
    cases ok with
    | true => simp [blobFailed] at hp
    | false =>
      simp only [P10.downloadEvaluationPdf]
      rcases henv : (P10.publicEvaluationDownload fuel st id trace).env with b | mm
      · rw [henv] at hf
        simp only [fallbackFailed] at hf
        rcases htr : truthy b.downloadUrl with _ | _
        · rw [htr] at hf
          simp [henv, htr]
        · rw [htr] at hf
          simp only [if_pos rfl] at hf
          cases fb with
          | resp ok2 s2 => simp at hf
          | reject m2 => simp [henv, htr]
      · simp [henv]

/-! ## Claims -/

/-- C1: when a request receives a 401 response whose error text contains
the expiry marker and the subsequent token refresh succeeds, the original
request is replayed exactly once - the `calls` list is precisely the
primary fetch, the refresh fetch, and one replay whose Authorization
header is rebuilt from the new access token - and the envelope handed to
the caller is determined by the replay outcome alone (`retryEnvelope`),
not by the original 401. -/
theorem c1_refresh_success_replay (m : Nat) (st : Session) (ep : String) (isForm : Bool)
    (b1 rb : Body) (e tk : String) (o3 : FetchOutcome) (rest : List FetchOutcome)
    (hb : b1.error = some e) (he : strIncludes e "expired" = true)
    (hr : truthy st.ladiRefresh = true) (ha : rb.accessToken = some tk) :
    (P10.request (m + 1 + 1 + 1) st ep isForm
        (FetchOutcome.resp false 401 b1 :: FetchOutcome.resp true 200 rb :: o3 :: rest)).calls
      = [⟨apiBaseUrl ++ ep, authHeader st.token, some (if isForm then 300000 else 30000)⟩,
         ⟨apiBaseUrl ++ "/auth/refresh", authHeader st.token, some 30000⟩,
         ⟨apiBaseUrl ++ ep, some ("Bearer " ++ tk), none⟩]
    ∧ (P10.request (m + 1 + 1 + 1) st ep isForm
        (FetchOutcome.resp false 401 b1 :: FetchOutcome.resp true 200 rb :: o3 :: rest)).env
      = retryEnvelope o3
    ∧ (P10.request (m + 1 + 1 + 1) st ep isForm
        (FetchOutcome.resp false 401 b1 :: FetchOutcome.resp true 200 rb :: o3 :: rest)).trace
      = rest
    ∧ (P10.request (m + 1 + 1 + 1) st ep isForm
        (FetchOutcome.resp false 401 b1 :: FetchOutcome.resp true 200 rb :: o3 :: rest)).pending
      = false := by
  cases o3 with
  | resp ok2 s2 b2 =>
    cases ok2 <;>
      simp [P10.request, P10.requestTry, P10.refreshToken, outxOfTry, popTrace, optIncludes,
        jsStringOfOpt, hb, he, hr, ha, Envelope.success, retryEnvelope]
  | abort =>
    simp [P10.request, P10.requestTry, P10.refreshToken, outxOfTry, popTrace, optIncludes,
      jsStringOfOpt, hb, he, hr, ha, Envelope.success, retryEnvelope]
  | reject msg =>
    simp [P10.request, P10.requestTry, P10.refreshToken, outxOfTry, popTrace, optIncludes,
      jsStringOfOpt, hb, he, hr, ha, Envelope.success, retryEnvelope]

/-- C1 witness: a concrete expired-401 run whose refresh succeeds and
whose replay returns 200. -/
theorem c1_refresh_success_replay_witness :
    (P10.request (0 + 1 + 1 + 1) stA "/user/profile" false
        (FetchOutcome.resp false 401 bodyExpired :: FetchOutcome.resp true 200 bodyTokens ::
          FetchOutcome.resp true 200 bodyData :: [])).calls
      = [⟨apiBaseUrl ++ "/user/profile", authHeader stA.token, some (if false then 300000 else 30000)⟩,
         ⟨apiBaseUrl ++ "/auth/refresh", authHeader stA.token, some 30000⟩,
         ⟨apiBaseUrl ++ "/user/profile", some ("Bearer " ++ "newAcc"), none⟩]
    ∧ (P10.request (0 + 1 + 1 + 1) stA "/user/profile" false
        (FetchOutcome.resp false 401 bodyExpired :: FetchOutcome.resp true 200 bodyTokens ::
          FetchOutcome.resp true 200 bodyData :: [])).env
      = retryEnvelope (FetchOutcome.resp true 200 bodyData)
    ∧ (P10.request (0 + 1 + 1 + 1) stA "/user/profile" false
        (FetchOutcome.resp false 401 bodyExpired :: FetchOutcome.resp true 200 bodyTokens ::
          FetchOutcome.resp true 200 bodyData :: [])).trace
      = []
    ∧ (P10.request (0 + 1 + 1 + 1) stA "/user/profile" false
        (FetchOutcome.resp false 401 bodyExpired :: FetchOutcome.resp true 200 bodyTokens ::
          FetchOutcome.resp true 200 bodyData :: [])).pending
      = false :=
  c1_refresh_success_replay 0 stA "/user/profile" false bodyExpired bodyTokens
    "Token has expired" "newAcc" (FetchOutcome.resp true 200 bodyData) []
    rfl (by decide) (by decide) rfl

/-- C2 counterexample: a concrete run in which a 401-expired response is
followed by a failed refresh (no stored refresh token).  The caller does
receive the session-expired failure envelope, but because the source
calls `this.logout()` without `await`, the tokens are not yet cleared at
the moment the envelope is returned: an `isAuthenticated()` check made
right after the envelope is returned yields `true`, not `false` as the
claim states. -/
theorem c2_refresh_fail_cex :
    (P10.request 3 stNoRefresh "/user/profile" false
        [FetchOutcome.resp false 401 bodyExpired]).env
      = Envelope.fail "Session expired. Please log in again."
    ∧ P10.isAuthenticated
        (P10.request 3 stNoRefresh "/user/profile" false
          [FetchOutcome.resp false 401 bodyExpired]).st
      = true := by decide

/-- C2 (amended): when a request receives a 401-expired response and the
refresh fails - either because no refresh token is stored (first
conjunct) or because the refresh round trip itself fails (second
conjunct) - the caller receives a failure envelope with the exact error
`Session expired. Please log in again.`; a logout is initiated before the
envelope is returned (`pending = true`) but completes asynchronously: the
session state at the moment of return is unchanged, and only once the
initiated logout completes (`finalizeLogout`) is `isAuthenticated()`
false. -/
theorem c2_refresh_fail_amended :
    (∀ (m : Nat) (st : Session) (ep : String) (isForm : Bool) (b1 : Body) (e : String)
        (rest : List FetchOutcome),
      b1.error = some e → strIncludes e "expired" = true → truthy st.ladiRefresh = false →
      (P10.request (m + 1 + 1 + 1) st ep isForm (FetchOutcome.resp false 401 b1 :: rest)).env
        = Envelope.fail "Session expired. Please log in again."
      ∧ (P10.request (m + 1 + 1 + 1) st ep isForm (FetchOutcome.resp false 401 b1 :: rest)).pending
        = true
      ∧ (P10.request (m + 1 + 1 + 1) st ep isForm (FetchOutcome.resp false 401 b1 :: rest)).st = st
      ∧ P10.isAuthenticated (finalizeLogout
          (P10.request (m + 1 + 1 + 1) st ep isForm (FetchOutcome.resp false 401 b1 :: rest)).st)
        = false)
    ∧ (∀ (m : Nat) (st : Session) (ep : String) (isForm : Bool) (b1 : Body) (e msg : String)
        (rest : List FetchOutcome),
      b1.error = some e → strIncludes e "expired" = true → truthy st.ladiRefresh = true →
      (P10.request (m + 1 + 1 + 1) st ep isForm
          (FetchOutcome.resp false 401 b1 :: FetchOutcome.reject msg :: rest)).env
        = Envelope.fail "Session expired. Please log in again."
      ∧ (P10.request (m + 1 + 1 + 1) st ep isForm
          (FetchOutcome.resp false 401 b1 :: FetchOutcome.reject msg :: rest)).pending = true
      ∧ (P10.request (m + 1 + 1 + 1) st ep isForm
          (FetchOutcome.resp false 401 b1 :: FetchOutcome.reject msg :: rest)).st = st
      ∧ P10.isAuthenticated (finalizeLogout
          (P10.request (m + 1 + 1 + 1) st ep isForm
            (FetchOutcome.resp false 401 b1 :: FetchOutcome.reject msg :: rest)).st)
        = false) := by
  constructor
  · intro m st ep isForm b1 e rest hb he hr
    simp [P10.request, P10.requestTry, P10.refreshToken, outxOfTry, popTrace, optIncludes,
      hb, he, hr, Envelope.success, finalizeLogout, catch_session_expired,
      isAuthenticated_cleared]
  · intro m st ep isForm b1 e msg rest hb he hr
    obtain ⟨mm, hm⟩ := catch_total (JsErr.error msg)
    simp [P10.request, P10.requestTry, P10.refreshToken, outxOfTry, popTrace, optIncludes,
      hb, he, hr, hm, Envelope.success, finalizeLogout, catch_session_expired,
      isAuthenticated_cleared]

/-- C2 witness: the first conjunct of the amended claim at a concrete
input. -/
theorem c2_refresh_fail_witness :
    (P10.request (0 + 1 + 1 + 1) stNoRefresh "/user/profile" false
        (FetchOutcome.resp false 401 bodyExpired :: [])).env
      = Envelope.fail "Session expired. Please log in again."
    ∧ (P10.request (0 + 1 + 1 + 1) stNoRefresh "/user/profile" false
        (FetchOutcome.resp false 401 bodyExpired :: [])).pending = true
    ∧ (P10.request (0 + 1 + 1 + 1) stNoRefresh "/user/profile" false
        (FetchOutcome.resp false 401 bodyExpired :: [])).st = stNoRefresh
    ∧ P10.isAuthenticated (finalizeLogout
        (P10.request (0 + 1 + 1 + 1) stNoRefresh "/user/profile" false
          (FetchOutcome.resp false 401 bodyExpired :: [])).st)
      = false :=
  c2_refresh_fail_amended.1 0 stNoRefresh "/user/profile" false bodyExpired
    "Token has expired" [] rfl (by decide) (by decide)

/-- C3 counterexample: `downloadEvaluationPdf` is an API-client operation,
yet on a concrete run where the primary blob fetch returns 500 and the
fallback signed-URL request also fails, the operation rejects - an
exception escapes the API-client boundary instead of a Result envelope
being returned. -/
theorem c3_never_throws_cex :
    (P10.downloadEvaluationPdf 1 stEmpty 5 (BlobOutcome.resp false 500)
        [FetchOutcome.resp false 500 {}] (BlobOutcome.reject "boom")).res
      = Except.error (JsErr.error "Download failed. Please try again or contact support.") := by
  rfl

/-- C3 (amended): every operation routed through the core `request`
method returns the uniform Result envelope - its catch clause maps every
thrown error to a failure envelope (first conjunct) - but the void
download helpers are outside this guarantee: `downloadEvaluationPdf`
throws `Download failed. Please try again or contact support.` past the
boundary when both download paths fail (second conjunct), and
`downloadTemplate` throws `response.error || (Download failed)` whenever
its request produced a failure envelope (third conjunct). -/
theorem c3_envelope_boundary_amended :
    (∀ e : JsErr, ∃ m, catchEnvelope e = Envelope.fail m)
    ∧ (∀ (fuel : Nat) (st : Session) (id : Nat) (primary : BlobOutcome)
        (trace : List FetchOutcome) (fb : BlobOutcome),
      blobFailed primary = true →
      fallbackFailed (P10.publicEvaluationDownload fuel st id trace).env fb = true →
      (P10.downloadEvaluationPdf fuel st id primary trace fb).res
        = Except.error (JsErr.error "Download failed. Please try again or contact support."))
    ∧ (∀ (fuel : Nat) (st : Session) (id : Nat) (trace : List FetchOutcome) (mm : String),
      (P10.request fuel st ("/templates/" ++ toString id ++ "/download") false trace).env
        = Envelope.fail mm →
      (P10.downloadTemplate fuel st id trace).res
        = Except.error (JsErr.error (if mm.isEmpty then "Download failed" else mm))) := by
  refine ⟨catch_total, ?_, ?_⟩
  · intro fuel st id primary trace fb hp hf
    exact (download_both_fail fuel st id primary trace fb hp hf).1
  · intro fuel st id trace mm h
    simp [P10.downloadTemplate, h]

/-- C3 witness: the three conjuncts of the amended claim at concrete
inputs. -/
theorem c3_envelope_boundary_witness :
    (∃ m, catchEnvelope JsErr.abortError = Envelope.fail m)
    ∧ (P10.downloadEvaluationPdf 1 stA 5 (BlobOutcome.resp false 500)
        [FetchOutcome.resp false 500 {}] (BlobOutcome.reject "boom")).res
      = Except.error (JsErr.error "Download failed. Please try again or contact support.")
    ∧ (P10.downloadTemplate 1 stA 3 [FetchOutcome.reject "Failed to fetch"]).res
      = Except.error (JsErr.error
          (if ("Network error - please check your internet connection and try again." : String).isEmpty
            then "Download failed"
            else "Network error - please check your internet connection and try again.")) :=
  ⟨c3_envelope_boundary_amended.1 JsErr.abortError,
   c3_envelope_boundary_amended.2.1 1 stA 5 (BlobOutcome.resp false 500)
     [FetchOutcome.resp false 500 {}] (BlobOutcome.reject "boom") (by decide) (by decide),
   c3_envelope_boundary_amended.2.2 1 stA 3 [FetchOutcome.reject "Failed to fetch"]
     "Network error - please check your internet connection and try again." (by decide)⟩

/-- C4 counterexample: in the `src/src/services/api.ts` variant, a
successful login whose response carries a (truthy) refresh token leaves
`ladi_refresh_token` absent from durable storage - only the access token
is persisted - so the claim that both tokens are in durable storage when
the call returns is false for that variant. -/
theorem c4_src_login_cex :
    bodyTokens.refreshTok = some "newRef"
    ∧ (Src.login 1 stEmpty [FetchOutcome.resp true 200 bodyTokens]).env = Envelope.ok bodyTokens
    ∧ (Src.login 1 stEmpty [FetchOutcome.resp true 200 bodyTokens]).st.ladiTok = some "newAcc"
    ∧ (Src.login 1 stEmpty [FetchOutcome.resp true 200 bodyTokens]).st.ladiRefresh = none := by
  decide

/-- C4 (amended): in the part_010 variant, every successful login or
signup whose response carries a nonempty access token and a truthy
refresh token stores both tokens durably (`ladi_token` and
`ladi_refresh_token`) before the call returns, and `isAuthenticated()` is
true at that point; the `src/src/services/api.ts` variant persists only
the access token (see the counterexample). -/
theorem c4_login_signup_store_tokens (m : Nat) (st : Session) (b : Body)
    (rest : List FetchOutcome) (a : String)
    (ha : b.accessToken = some a) (hne : a.isEmpty = false)
    (hrt : truthy b.refreshTok = true) :
    ((P10.login (m + 1) st (FetchOutcome.resp true 200 b :: rest)).env = Envelope.ok b
      ∧ (P10.login (m + 1) st (FetchOutcome.resp true 200 b :: rest)).st.token = some a
      ∧ (P10.login (m + 1) st (FetchOutcome.resp true 200 b :: rest)).st.ladiTok = some a
      ∧ (P10.login (m + 1) st (FetchOutcome.resp true 200 b :: rest)).st.ladiRefresh = b.refreshTok
      ∧ P10.isAuthenticated (P10.login (m + 1) st (FetchOutcome.resp true 200 b :: rest)).st = true)
    ∧ ((P10.signup (m + 1) st (FetchOutcome.resp true 200 b :: rest)).env = Envelope.ok b
      ∧ (P10.signup (m + 1) st (FetchOutcome.resp true 200 b :: rest)).st.token = some a
      ∧ (P10.signup (m + 1) st (FetchOutcome.resp true 200 b :: rest)).st.ladiTok = some a
      ∧ (P10.signup (m + 1) st (FetchOutcome.resp true 200 b :: rest)).st.ladiRefresh = b.refreshTok
      ∧ P10.isAuthenticated (P10.signup (m + 1) st (FetchOutcome.resp true 200 b :: rest)).st
        = true) := by
  constructor <;>
    simp [P10.login, P10.signup, P10.request, P10.requestTry, outxOfTry, popTrace, ha, hrt,
      P10.isAuthenticated, truthy_some, hne]

/-- C4 witness: a concrete successful login/signup response carrying both
tokens. -/
theorem c4_login_signup_store_tokens_witness :
    ((P10.login (0 + 1) stEmpty (FetchOutcome.resp true 200 bodyTokens :: [])).env
        = Envelope.ok bodyTokens
      ∧ (P10.login (0 + 1) stEmpty (FetchOutcome.resp true 200 bodyTokens :: [])).st.token
        = some "newAcc"
      ∧ (P10.login (0 + 1) stEmpty (FetchOutcome.resp true 200 bodyTokens :: [])).st.ladiTok
        = some "newAcc"
      ∧ (P10.login (0 + 1) stEmpty (FetchOutcome.resp true 200 bodyTokens :: [])).st.ladiRefresh
        = bodyTokens.refreshTok
      ∧ P10.isAuthenticated
          (P10.login (0 + 1) stEmpty (FetchOutcome.resp true 200 bodyTokens :: [])).st = true)
    ∧ ((P10.signup (0 + 1) stEmpty (FetchOutcome.resp true 200 bodyTokens :: [])).env
        = Envelope.ok bodyTokens
      ∧ (P10.signup (0 + 1) stEmpty (FetchOutcome.resp true 200 bodyTokens :: [])).st.token
        = some "newAcc"
      ∧ (P10.signup (0 + 1) stEmpty (FetchOutcome.resp true 200 bodyTokens :: [])).st.ladiTok
        = some "newAcc"
      ∧ (P10.signup (0 + 1) stEmpty (FetchOutcome.resp true 200 bodyTokens :: [])).st.ladiRefresh
        = bodyTokens.refreshTok
      ∧ P10.isAuthenticated
          (P10.signup (0 + 1) stEmpty (FetchOutcome.resp true 200 bodyTokens :: [])).st = true) :=
  c4_login_signup_store_tokens 0 stEmpty bodyTokens [] "newAcc" rfl (by decide) (by decide)

/-- C5 counterexample: in the `src/src/services/api.ts` variant, `logout`
clears only the in-memory token and `ladi_token`; a refresh token present
in durable storage before the call survives it, so the claim that both
tokens are absent from durable storage after `logout()` is false for that
variant. -/
theorem c5_src_logout_cex :
    (Src.logout 1 stA [FetchOutcome.resp true 200 bodyData]).st.ladiRefresh = some "ref0"
    ∧ (Src.logout 1 stA [FetchOutcome.resp true 200 bodyData]).st.token = none
    ∧ Src.isAuthenticated (Src.logout 1 stA [FetchOutcome.resp true 200 bodyData]).st = false := by
  decide

/-- C5 (amended): in the part_010 variant, after `logout()` completes -
whatever the outcome of the backend logout request - the in-memory token
and both durable storage entries are cleared and `isAuthenticated()` is
false; the `src/src/services/api.ts` variant leaves `ladi_refresh_token`
in storage (see the counterexample). -/
theorem c5_logout_clears_all (fuel : Nat) (st : Session) (trace : List FetchOutcome) :
    (P10.logout fuel st trace).st = ⟨none, none, none⟩
    ∧ P10.isAuthenticated (P10.logout fuel st trace).st = false := by
  constructor <;> simp [P10.logout, P10.isAuthenticated, truthy_none]

/-- C6: evaluation of `getEvaluations` at the failing input of the claim -
two whole-request failures followed by a third-attempt success.  The call
does perform 3 attempts, retries only failure envelopes (a first-attempt
success envelope is returned after a single call, last conjunct), and
returns success to the caller - but the total elapsed backoff delay is 0,
not the claimed 1s + 2s: the backoff sleep sits in a `catch` block that
can never run, because `request` resolves with an envelope for every
outcome instead of throwing. -/
theorem c6_retry_no_backoff_eval :
    (P10.getEvaluations 1 stA [FetchOutcome.reject "Failed to fetch",
        FetchOutcome.reject "Failed to fetch", FetchOutcome.resp true 200 bodyData]).env
      = Envelope.ok bodyData
    ∧ (P10.getEvaluations 1 stA [FetchOutcome.reject "Failed to fetch",
        FetchOutcome.reject "Failed to fetch", FetchOutcome.resp true 200 bodyData]).calls.length
      = 3
    ∧ (P10.getEvaluations 1 stA [FetchOutcome.reject "Failed to fetch",
        FetchOutcome.reject "Failed to fetch", FetchOutcome.resp true 200 bodyData]).delays
      = []
    ∧ (P10.getEvaluations 1 stA [FetchOutcome.resp true 200 bodyData]).calls.length = 1 := by
  decide

/-- C7: `refreshToken` fails fast with the typed error
`No refresh token available` and issues no network call when no (truthy)
refresh token is in durable storage (first conjunct, an equality of the
whole operation result: state untouched, trace unconsumed, no calls); on
a successful refresh round trip it overwrites the access token both in
memory and in `ladi_token` storage while `ladi_refresh_token` keeps its
previous value (second conjunct). -/
theorem c7_refresh_contract :
    (∀ (fuel : Nat) (st : Session) (trace : List FetchOutcome),
      truthy st.ladiRefresh = false →
      P10.refreshToken (fuel + 1) st trace
        = ⟨Envelope.fail "No refresh token available", st, trace, [], false⟩)
    ∧ (∀ (m : Nat) (st : Session) (b : Body) (rest : List FetchOutcome) (a : String),
      truthy st.ladiRefresh = true → b.accessToken = some a →
      (P10.refreshToken (m + 1 + 1) st (FetchOutcome.resp true 200 b :: rest)).env = Envelope.ok b
      ∧ (P10.refreshToken (m + 1 + 1) st (FetchOutcome.resp true 200 b :: rest)).st
          = { st with token := some a, ladiTok := some a }
      ∧ (P10.refreshToken (m + 1 + 1) st (FetchOutcome.resp true 200 b :: rest)).calls
          = [⟨apiBaseUrl ++ "/auth/refresh", authHeader st.token, some 30000⟩]
      ∧ (P10.refreshToken (m + 1 + 1) st (FetchOutcome.resp true 200 b :: rest)).trace = rest) := by
  constructor
  · intro fuel st trace h
    simp [P10.refreshToken, h]
  · intro m st b rest a h hb
    simp [P10.refreshToken, P10.requestTry, P10.request, outxOfTry, popTrace, h, hb,
      Envelope.success]

/-- C7 witness: both conjuncts at concrete inputs. -/
theorem c7_refresh_contract_witness :
    (P10.refreshToken (0 + 1) stNoRefresh []
        = ⟨Envelope.fail "No refresh token available", stNoRefresh, [], [], false⟩)
    ∧ ((P10.refreshToken (0 + 1 + 1) stA (FetchOutcome.resp true 200 bodyTokens :: [])).env
        = Envelope.ok bodyTokens
      ∧ (P10.refreshToken (0 + 1 + 1) stA (FetchOutcome.resp true 200 bodyTokens :: [])).st
        = { stA with token := some "newAcc", ladiTok := some "newAcc" }
      ∧ (P10.refreshToken (0 + 1 + 1) stA (FetchOutcome.resp true 200 bodyTokens :: [])).calls
        = [⟨apiBaseUrl ++ "/auth/refresh", authHeader stA.token, some 30000⟩]
      ∧ (P10.refreshToken (0 + 1 + 1) stA (FetchOutcome.resp true 200 bodyTokens :: [])).trace
        = []) :=
  ⟨c7_refresh_contract.1 0 stNoRefresh [] (by decide),
   c7_refresh_contract.2 0 stA bodyTokens [] "newAcc" (by decide) rfl⟩

/-- C8 counterexample: the standalone `uploadAndEvaluate` operation is a
multipart upload, yet its fetch is issued bare - no abort controller and
no timer (`timeoutMs = none`) - so the claim that every backend request,
including the standalone upload-and-evaluate operations, runs under a
timeout is false. -/
theorem c8_upload_no_timeout_cex :
    (P10.uploadAndEvaluate 1 stA [FetchOutcome.resp true 200 bodyData]).calls
      = [⟨apiBaseUrl ++ "/upload/evaluate", some "Bearer tok0", none⟩] := by
  decide

/-- C8 (amended): every request issued through the core `request` method
has its initial fetch governed by an abort timer of 300000 ms when the
body is a multipart form and 30000 ms otherwise (first conjunct), and
when that timer fires the call resolves as the fixed timeout failure
envelope with the state untouched (second conjunct); the standalone
upload-and-evaluate fetches and the post-refresh replay fetch run with no
live timer (see the counterexample). -/
theorem c8_request_timeout_amended :
    (∀ (fuel : Nat) (st : Session) (ep : String) (isForm : Bool) (trace : List FetchOutcome),
      (P10.request (fuel + 1) st ep isForm trace).calls.head?
        = some ⟨apiBaseUrl ++ ep, authHeader st.token, some (if isForm then 300000 else 30000)⟩)
    ∧ (∀ (fuel : Nat) (st : Session) (ep : String) (isForm : Bool) (rest : List FetchOutcome),
      P10.request (fuel + 1) st ep isForm (FetchOutcome.abort :: rest)
        = ⟨Envelope.fail "Request timeout - the evaluation is taking longer than expected. Please try again or contact support if the issue persists.",
           st, rest,
           [⟨apiBaseUrl ++ ep, authHeader st.token, some (if isForm then 300000 else 30000)⟩],
           false⟩) := by
  constructor
  · exact request_head_call
  · intro fuel st ep isForm rest
    simp [P10.request, P10.requestTry, outxOfTry, popTrace, catchEnvelope]

/-- C9: when the primary direct blob fetch of `downloadEvaluationPdf`
fails, the fallback signed-URL request is attempted before any failure is
reported - it is the first (and only) JSON request issued, carrying the
current Authorization header - and when the fallback also fails, the
error surfaced is exactly
`Download failed. Please try again or contact support.` -/
theorem c9_download_fallback_chain (m : Nat) (st : Session) (id : Nat)
    (primary : BlobOutcome) (trace : List FetchOutcome) (fb : BlobOutcome)
    (hp : blobFailed primary = true)
    (hf : fallbackFailed (P10.publicEvaluationDownload (m + 1) st id trace).env fb = true) :
    (P10.downloadEvaluationPdf (m + 1) st id primary trace fb).res
      = Except.error (JsErr.error "Download failed. Please try again or contact support.")
    ∧ (P10.downloadEvaluationPdf (m + 1) st id primary trace fb).calls.head?
      = some ⟨apiBaseUrl ++ ("/upload/public/evaluation/" ++ toString id ++ "/download"),
          authHeader st.token, some 30000⟩ := by
  obtain ⟨h1, h2⟩ := download_both_fail (m + 1) st id primary trace fb hp hf
  refine ⟨h1, ?_⟩
  rw [h2]
  have hh := request_head_call m st ("/upload/public/evaluation/" ++ toString id ++ "/download")
    false trace
  simpa [P10.publicEvaluationDownload] using hh

/-- C9 witness: primary blob fetch returns 500; the signed-URL request
also fails with 500. -/
theorem c9_download_fallback_chain_witness :
    (P10.downloadEvaluationPdf (0 + 1) stA 7 (BlobOutcome.resp false 500)
        [FetchOutcome.resp false 500 {}] (BlobOutcome.reject "boom")).res
      = Except.error (JsErr.error "Download failed. Please try again or contact support.")
    ∧ (P10.downloadEvaluationPdf (0 + 1) stA 7 (BlobOutcome.resp false 500)
        [FetchOutcome.resp false 500 {}] (BlobOutcome.reject "boom")).calls.head?
      = some ⟨apiBaseUrl ++ ("/upload/public/evaluation/" ++ toString 7 ++ "/download"),
          authHeader stA.token, some 30000⟩ :=
  c9_download_fallback_chain 0 stA 7 (BlobOutcome.resp false 500)
    [FetchOutcome.resp false 500 {}] (BlobOutcome.reject "boom") (by decide) (by decide)

/-- C10: after `verifyResetToken` or `resetPassword` returns - whatever
the outcome of the request, including any refresh attempt it triggered -
the in-memory session access token equals its prior value: the
password-reset token is installed only for the duration of the single
request and never replaces the session token. -/
theorem c10_reset_token_restored (fuel : Nat) (st : Session) (tok : String)
    (trace : List FetchOutcome) :
    (P10.verifyResetToken fuel st tok trace).st.token = st.token
    ∧ (P10.resetPassword fuel st tok trace).st.token = st.token := by
  constructor <;> simp [P10.verifyResetToken, P10.resetPassword]

end LADI
